import Mathlib

/-!
Verification of `gemini_api_integrate_in_project.py`, a thin facade over the
`google.generativeai` SDK.  The Python module is embedded shallowly: the SDK
collaborator is an explicit record of (possibly failing) functions, Python
exceptions are an inductive type with an explicit cause chain (modelling
`raise ... from e`), and `os.environ` is an association list threaded through
the constructor and the CLI entry point.
-/

set_option autoImplicit false

/-- Python exception values relevant to the module: `ValueError` (raised for a
missing credential), `GoogleAPIError` (the provider-level error of the vendor
SDK), `GeminiAPIError` (the domain exception of the module, carrying the
message and the cause recorded by `raise ... from e` — every `GeminiAPIError`
the module raises has one), and any other `Exception` subclass. -/
inductive Exn where
  | valueError : String → Exn
  | googleAPIError : String → Exn
  | geminiAPIError : String → Exn → Exn
  | otherError : String → Exn
deriving DecidableEq, Repr

/-- Models Python `str(e)` as used in the module's f-strings. -/
def exnStr : Exn → String
  | .valueError m => m
  | .googleAPIError m => m
  | .geminiAPIError m _ => m
  | .otherError m => m

/-- Whether an exception is caught by `except GoogleAPIError`. -/
def isGoogleAPIError : Exn → Bool
  | .googleAPIError _ => true
  | _ => false

/-- Python string truthiness on an optional string: `None` and `""` are falsy
(`if not api_key`, `if response.text`). -/
def pyStrTruthy : Option String → Bool
  | none => false
  | some s => !(s == "")

/-- `os.environ`, modelled as an association list of variable/value pairs. -/
abbrev Environ := List (String × String)

/-- Environment lookup, as in `os.environ.get(k)`. -/
def envGet (env : Environ) (k : String) : Option String :=
  match env with
  | [] => none
  | (k', v') :: rest => if k' == k then some v' else envGet rest k

/-- Environment assignment, as in `os.environ[k] = v`. -/
def envSet (env : Environ) (k v : String) : Environ :=
  match env with
  | [] => [(k, v)]
  | (k', v') :: rest => if k' == k then (k, v) :: rest else (k', v') :: envSet rest k v

/-- Generation configuration, passed through opaquely (`generation_config`). -/
abbrev GenConfig := List (String × String)

/-- Safety settings, passed through opaquely (`safety_settings`). -/
abbrev SafetySettings := List (String × String)

/-- The response object produced by the `generate_content` method of the SDK
model: `raise_for_status` raises the recorded exception when present, and
`text` holds the generated text (absent or empty counting as "no content"). -/
structure GenAIResponse where
  raise_for_status : Option Exn
  text : Option String
deriving Repr

/-- The SDK model handle (`genai.GenerativeModel` instance): its
`generate_content` method either raises an exception or returns a response. -/
structure GenerativeModel where
  generate_content : String → Option GenConfig → Option SafetySettings → Except Exn GenAIResponse

/-- The delegated SDK library (`google.generativeai`): `configure` may raise,
and `GenerativeModel` construction either raises or yields a model handle. -/
structure GenAI where
  configure : String → Option Exn
  generativeModel : String → Except Exn GenerativeModel

/-- The facade (`GeminiAPIClient`): its fields after a successful `__init__`. -/
structure GeminiAPIClient where
  api_key : String
  model : GenerativeModel

/-- `GeminiAPIClient.__init__`: raises `ValueError` on a falsy credential;
otherwise stores the key, writes `os.environ["GOOGLE_API_KEY"]`, calls
`genai.configure` (outside any `try`, so its exceptions propagate raw), then
wraps any exception from `genai.GenerativeModel(model_name)` into
`GeminiAPIError` with the original cause.  Returns the construction outcome
together with the final environment. -/
def GeminiAPIClient.mk_init (lib : GenAI) (env : Environ) (api_key : Option String)
    (model_name : String) : Except Exn GeminiAPIClient × Environ :=
  if !(pyStrTruthy api_key) then
    (.error (.valueError "API key cannot be empty or None."), env)
  else
    let key := api_key.getD ""
    let env1 := envSet env "GOOGLE_API_KEY" key
    match lib.configure key with
    | some e => (.error e, env1)
    | none =>
      match lib.generativeModel model_name with
      | .error e =>
        (.error (.geminiAPIError ("Failed to initialize model: " ++ exnStr e) e), env1)
      | .ok m => (.ok { api_key := key, model := m }, env1)

/-- The `try` suite of `generate_content`: delegates to the model handle,
calls `response.raise_for_status()`, then returns `response.text` when truthy
and the sentinel `"No content generated."` otherwise.  An `.error` value is an
exception escaping the `try` suite into the `except` clauses. -/
def GeminiAPIClient.generate_content_try (c : GeminiAPIClient) (prompt : String)
    (generation_config : Option GenConfig) (safety_settings : Option SafetySettings) :
    Except Exn String :=
  match c.model.generate_content prompt generation_config safety_settings with
  | .error e => .error e
  | .ok response =>
    match response.raise_for_status with
    | some e => .error e
    | none =>
      if pyStrTruthy response.text then .ok (response.text.getD "")
      else .ok "No content generated."

/-- The message the `except` clauses of `generate_content` put on the wrapping
`GeminiAPIError`, depending on whether the caught exception matches
`except GoogleAPIError` or falls to `except Exception`. -/
def contentWrapMsg (e : Exn) : String :=
  if isGoogleAPIError e then "Gemini API error: " ++ exnStr e
  else "Unexpected error during content generation: " ++ exnStr e

/-- `GeminiAPIClient.generate_content`: runs the `try` suite; any exception it
raises is wrapped by the `except` clauses into `GeminiAPIError` carrying the
original cause. -/
def GeminiAPIClient.generate_content (c : GeminiAPIClient) (prompt : String)
    (generation_config : Option GenConfig) (safety_settings : Option SafetySettings) :
    Except Exn String :=
  match c.generate_content_try prompt generation_config safety_settings with
  | .ok s => .ok s
  | .error e => .error (.geminiAPIError (contentWrapMsg e) e)

/-- Stateful semantics of a `generate_content` call: the method body contains
no assignment to `self.api_key`, `self.model` or `os.environ`, so the facade
fields and the ambient environment pass through unchanged alongside the
result. -/
def GeminiAPIClient.generate_content_run (c : GeminiAPIClient) (env : Environ) (prompt : String)
    (generation_config : Option GenConfig) (safety_settings : Option SafetySettings) :
    Except Exn String × GeminiAPIClient × Environ :=
  (c.generate_content prompt generation_config safety_settings, c, env)

/-- Outcome of running the demonstration CLI: the lines printed to standard
output, the process exit status, how many `generate_content` calls were made,
and the final environment. -/
structure MainResult where
  output : List String
  exit_code : Nat
  gen_calls : Nat
  env : Environ
deriving Repr

/-- How the `except` clauses of `main` print an error: `GeminiAPIError` and
`ValueError` print `Error: ...`, any other exception prints
`An unexpected error occurred: ...`. -/
def mainErrLine : Exn → String
  | .geminiAPIError m _ => "Error: " ++ m
  | .valueError m => "Error: " ++ m
  | e => "An unexpected error occurred: " ++ exnStr e

/-- The diagnostic printed by `main` when `GEMINI_API_KEY` is missing. -/
def missingKeyMsg : String :=
  "Error: Gemini API key not found in environment variable 'GEMINI_API_KEY'. Please set the environment variable and try again."

/-- The example `generation_config` dict built in `main`. -/
def mainGenConfig : GenConfig :=
  [("temperature", "0.9"), ("top_p", "1"), ("top_k", "1"), ("max_output_tokens", "200")]

/-- `main()`: reads `GEMINI_API_KEY`, prints a diagnostic and returns (exit
status 0, since `main` just returns and the script ends normally) when it is
falsy; otherwise constructs the client and issues the two example prompts,
with the `try`/`except` clauses turning any raised error into a printed line
followed by a normal return. -/
def main_run (lib : GenAI) (env : Environ) : MainResult :=
  let api_key := envGet env "GEMINI_API_KEY"
  if !(pyStrTruthy api_key) then
    { output := [missingKeyMsg], exit_code := 0, gen_calls := 0, env := env }
  else
    match GeminiAPIClient.mk_init lib env api_key "gemini-1.5-pro-latest" with
    | (.error e, env1) =>
      { output := [mainErrLine e], exit_code := 0, gen_calls := 0, env := env1 }
    | (.ok client, env1) =>
      let prompt1 := "Write a short poem about a cat."
      let out0 := ["Prompt: " ++ prompt1]
      match client.generate_content prompt1 none none with
      | .error e =>
        { output := out0 ++ [mainErrLine e], exit_code := 0, gen_calls := 1, env := env1 }
      | .ok r1 =>
        let out1 := out0 ++ ["Response: " ++ r1, "", "Example with Generation Configuration:"]
        match client.generate_content "Summarize the plot of Hamlet in 5 sentences."
            (some mainGenConfig) none with
        | .error e =>
          { output := out1 ++ [mainErrLine e], exit_code := 0, gen_calls := 2, env := env1 }
        | .ok r2 =>
          { output := out1 ++ ["Response: " ++ r2], exit_code := 0, gen_calls := 2, env := env1 }

/-- The spec's error taxonomy: an exception is one of the three domain kinds
(`InvalidCredential` is the constructor-raised `ValueError`;
`ModelInitializationError` and `ContentGenerationError` are both realised as
`GeminiAPIError`) rather than a raw vendor or unexpected exception. -/
def isDomainError : Exn → Bool
  | .valueError _ => true
  | .geminiAPIError _ _ => true
  | _ => false

/-! ### Lemmas about the environment model -/

/-- Looking up a key right after setting it yields the written value. -/
theorem envGet_envSet (env : Environ) (k v : String) : envGet (envSet env k v) k = some v := by
  induction env with
  | nil => simp [envSet, envGet]
  | cons p rest ih =>
    obtain ⟨k', v'⟩ := p
    by_cases hk : (k' == k) = true
    · simp [envSet, envGet, hk]
    · simp only [envSet, hk, Bool.false_eq_true, if_false]
      simp [envGet, hk, ih]

/-! ### Concrete stub collaborators used by witnesses and counterexamples -/

/-- A successful response carrying the text `"ok"`. -/
def stubRespOk : GenAIResponse := ⟨none, some "ok"⟩

/-- A model handle whose calls always succeed with `stubRespOk`. -/
def stubModelOk : GenerativeModel := ⟨fun _ _ _ => .ok stubRespOk⟩

/-- A fully healthy SDK stub. -/
def stubLib : GenAI := ⟨fun _ => none, fun _ => .ok stubModelOk⟩

/-- A client built over a model handle that returns a given response. -/
def clientWithResp (resp : GenAIResponse) : GeminiAPIClient :=
  ⟨"test-key", ⟨fun _ _ _ => .ok resp⟩⟩

/-- A client built over a model handle that raises a given exception. -/
def clientWithErr (e : Exn) : GeminiAPIClient :=
  ⟨"test-key", ⟨fun _ _ _ => .error e⟩⟩

/-- An SDK stub whose `configure` raises a provider-level error while model
construction would succeed. -/
def cfgFailLib : GenAI :=
  ⟨fun _ => some (.googleAPIError "configure failed"), fun _ => .ok stubModelOk⟩

/-- An SDK stub whose `configure` raises a non-provider exception while model
construction would succeed. -/
def cfgRawLib : GenAI :=
  ⟨fun _ => some (.otherError "boom"), fun _ => .ok stubModelOk⟩

/-- An SDK stub whose `configure` succeeds and whose model construction
raises a provider-level error. -/
def modelFailLib : GenAI :=
  ⟨fun _ => none, fun _ => .error (.googleAPIError "model boom")⟩

/-! ### Claim theorems -/

/-- C1: for every prompt whose delegated collaborator call succeeds (no
exception from the model call, and `raise_for_status` passes) and yields
non-empty generated text, `generate_content` returns that exact text
unchanged. -/
theorem generate_content_returns_exact_text (c : GeminiAPIClient) (p : String)
    (g : Option GenConfig) (s : Option SafetySettings) (resp : GenAIResponse) (t : String)
    (hcall : c.model.generate_content p g s = .ok resp)
    (hstatus : resp.raise_for_status = none)
    (htext : resp.text = some t) (hne : t ≠ "") :
    c.generate_content p g s = .ok t := by
  simp [GeminiAPIClient.generate_content, GeminiAPIClient.generate_content_try,
    hcall, hstatus, htext, pyStrTruthy, hne]

/-- Witness for C1 at a concrete client whose stub collaborator returns the
text `"hello"`. -/
theorem generate_content_returns_exact_text_witness :
    (clientWithResp ⟨none, some "hello"⟩).model.generate_content "hi" none none =
        .ok ⟨none, some "hello"⟩ ∧
    ("hello" : String) ≠ "" ∧
    (clientWithResp ⟨none, some "hello"⟩).generate_content "hi" none none = .ok "hello" :=
  ⟨rfl, by decide,
    generate_content_returns_exact_text (clientWithResp ⟨none, some "hello"⟩) "hi" none none
      ⟨none, some "hello"⟩ "hello" rfl rfl rfl (by decide)⟩

/-- C2: for every prompt whose delegated collaborator call succeeds but
yields empty or absent text, `generate_content` returns the literal sentinel
`"No content generated."` (an `.ok` result, not a failure). -/
theorem generate_content_empty_text_sentinel (c : GeminiAPIClient) (p : String)
    (g : Option GenConfig) (s : Option SafetySettings) (resp : GenAIResponse)
    (hcall : c.model.generate_content p g s = .ok resp)
    (hstatus : resp.raise_for_status = none)
    (htext : resp.text = none ∨ resp.text = some "") :
    c.generate_content p g s = .ok "No content generated." := by
  rcases htext with h | h <;>
    simp [GeminiAPIClient.generate_content, GeminiAPIClient.generate_content_try,
      hcall, hstatus, h, pyStrTruthy]

/-- Witness for C2 at a concrete client whose stub collaborator succeeds with
absent text. -/
theorem generate_content_empty_text_sentinel_witness :
    (clientWithResp ⟨none, none⟩).model.generate_content "hi" none none = .ok ⟨none, none⟩ ∧
    (clientWithResp ⟨none, none⟩).generate_content "hi" none none =
      .ok "No content generated." :=
  ⟨rfl,
    generate_content_empty_text_sentinel (clientWithResp ⟨none, none⟩) "hi" none none
      ⟨none, none⟩ rfl rfl (Or.inl rfl)⟩

/-- C3: every exception raised inside the `try` suite of `generate_content`
by the delegated collaborator — whether from the model call or from
`raise_for_status`, provider-level or otherwise — is re-raised as
`GeminiAPIError` whose recorded cause is the original exception, so the raw
exception never reaches the caller. -/
theorem generate_content_wraps_all_exceptions (c : GeminiAPIClient) (p : String)
    (g : Option GenConfig) (s : Option SafetySettings) (e : Exn)
    (h : c.model.generate_content p g s = .error e ∨
      ∃ resp, c.model.generate_content p g s = .ok resp ∧ resp.raise_for_status = some e) :
    c.generate_content p g s = .error (.geminiAPIError (contentWrapMsg e) e) := by
  rcases h with hcall | ⟨resp, hcall, hstatus⟩
  · simp [GeminiAPIClient.generate_content, GeminiAPIClient.generate_content_try, hcall]
  · simp [GeminiAPIClient.generate_content, GeminiAPIClient.generate_content_try,
      hcall, hstatus]

/-- Witness for C3 at a concrete client whose stub collaborator raises a
provider-level error. -/
theorem generate_content_wraps_all_exceptions_witness :
    (clientWithErr (.googleAPIError "quota")).model.generate_content "hi" none none =
        .error (.googleAPIError "quota") ∧
    (clientWithErr (.googleAPIError "quota")).generate_content "hi" none none =
      .error (.geminiAPIError (contentWrapMsg (.googleAPIError "quota"))
        (.googleAPIError "quota")) :=
  ⟨rfl,
    generate_content_wraps_all_exceptions (clientWithErr (.googleAPIError "quota"))
      "hi" none none (.googleAPIError "quota") (Or.inl rfl)⟩

/-- C4: for every empty or absent credential value, construction fails with
the `ValueError` (`InvalidCredential`) and the ambient environment is
returned unchanged — the check precedes the `os.environ` write and the
`genai` calls. -/
theorem mk_init_invalid_credential (lib : GenAI) (env : Environ) (api_key : Option String)
    (model_name : String) (h : pyStrTruthy api_key = false) :
    GeminiAPIClient.mk_init lib env api_key model_name =
      (.error (.valueError "API key cannot be empty or None."), env) := by
  simp [GeminiAPIClient.mk_init, h]

/-- Witness for C4: an absent credential against a healthy stub, with a
non-trivial starting environment that comes back untouched. -/
theorem mk_init_invalid_credential_witness :
    pyStrTruthy (none : Option String) = false ∧
    GeminiAPIClient.mk_init stubLib [("HOME", "/root")] none "gemini-1.5-pro-latest" =
      (.error (.valueError "API key cannot be empty or None."), [("HOME", "/root")]) :=
  ⟨rfl, mk_init_invalid_credential stubLib [("HOME", "/root")] none "gemini-1.5-pro-latest" rfl⟩

/-- C7: `raise_for_status` is consulted before `response.text`: whenever the
outcome status is a failure, `generate_content` raises (a wrapped error whose
cause is the status exception) no matter what text the response carries — it
never silently returns the partial data. -/
theorem generate_content_status_before_text (c : GeminiAPIClient) (p : String)
    (g : Option GenConfig) (s : Option SafetySettings) (resp : GenAIResponse) (e : Exn)
    (hcall : c.model.generate_content p g s = .ok resp)
    (hstatus : resp.raise_for_status = some e) :
    c.generate_content p g s = .error (.geminiAPIError (contentWrapMsg e) e) := by
  simp [GeminiAPIClient.generate_content, GeminiAPIClient.generate_content_try, hcall, hstatus]

/-- Witness for C7: the stub response fails its status check while carrying
non-empty text, and the call still surfaces a failure. -/
theorem generate_content_status_before_text_witness :
    (clientWithResp ⟨some (.googleAPIError "http 500"), some "partial"⟩).model.generate_content
        "hi" none none = .ok ⟨some (.googleAPIError "http 500"), some "partial"⟩ ∧
    (clientWithResp ⟨some (.googleAPIError "http 500"), some "partial"⟩).generate_content
        "hi" none none =
      .error (.geminiAPIError (contentWrapMsg (.googleAPIError "http 500"))
        (.googleAPIError "http 500")) :=
  ⟨rfl,
    generate_content_status_before_text
      (clientWithResp ⟨some (.googleAPIError "http 500"), some "partial"⟩) "hi" none none
      ⟨some (.googleAPIError "http 500"), some "partial"⟩ (.googleAPIError "http 500") rfl rfl⟩

/-- C8: two consecutive `generate_content` calls with identical arguments,
with the facade fields and the ambient environment threaded through, yield
identical results, and neither call changes the facade state or the
environment (the method body performs no writes). -/
theorem generate_content_idempotent_stateless (c : GeminiAPIClient) (env : Environ)
    (p : String) (g : Option GenConfig) (s : Option SafetySettings) :
    (GeminiAPIClient.generate_content_run c env p g s).1 =
      (GeminiAPIClient.generate_content_run
        (GeminiAPIClient.generate_content_run c env p g s).2.1
        (GeminiAPIClient.generate_content_run c env p g s).2.2 p g s).1 ∧
    (GeminiAPIClient.generate_content_run c env p g s).2.1 = c ∧
    (GeminiAPIClient.generate_content_run c env p g s).2.2 = env :=
  ⟨rfl, rfl, rfl⟩

/-- C10: for every credential passing the truthiness check, the final
environment of construction is exactly the starting environment with
`GOOGLE_API_KEY` set to that credential — in every outcome, including a
failed model-handle acquisition, so the ambient write is never rolled
back. -/
theorem mk_init_sets_ambient_credential (lib : GenAI) (env : Environ)
    (api_key : Option String) (model_name : String) (h : pyStrTruthy api_key = true) :
    (GeminiAPIClient.mk_init lib env api_key model_name).2 =
      envSet env "GOOGLE_API_KEY" (api_key.getD "") ∧
    envGet (GeminiAPIClient.mk_init lib env api_key model_name).2 "GOOGLE_API_KEY" =
      some (api_key.getD "") := by
  have h2 : (GeminiAPIClient.mk_init lib env api_key model_name).2 =
      envSet env "GOOGLE_API_KEY" (api_key.getD "") := by
    rcases hc : lib.configure (api_key.getD "") with _ | e
    · rcases hm : lib.generativeModel model_name with e | m <;>
        simp [GeminiAPIClient.mk_init, h, hc, hm]
    · simp [GeminiAPIClient.mk_init, h, hc]
  exact ⟨h2, by rw [h2, envGet_envSet]⟩

/-- Witness for C10: a non-empty credential against a collaborator whose
model-handle acquisition fails; the ambient credential is set regardless. -/
theorem mk_init_sets_ambient_credential_witness :
    pyStrTruthy (some "sk-123") = true ∧
    ((GeminiAPIClient.mk_init modelFailLib [] (some "sk-123") "gemini-1.5-pro-latest").2 =
        envSet [] "GOOGLE_API_KEY" "sk-123" ∧
      envGet (GeminiAPIClient.mk_init modelFailLib [] (some "sk-123")
          "gemini-1.5-pro-latest").2 "GOOGLE_API_KEY" = some "sk-123") :=
  ⟨by decide,
    mk_init_sets_ambient_credential modelFailLib [] (some "sk-123")
      "gemini-1.5-pro-latest" (by decide)⟩

/-- C5 counterexample: a collaborator whose `configure` raises while
model-handle acquisition would succeed.  Model-handle acquisition does not
throw at this input, yet construction neither succeeds nor raises the
wrapping `GeminiAPIError`: the raw `GoogleAPIError` from `configure` escapes,
because `genai.configure` sits outside the `try` block. -/
theorem mk_init_configure_error_escapes :
    cfgFailLib.generativeModel "gemini-1.5-pro-latest" = .ok stubModelOk ∧
    (GeminiAPIClient.mk_init cfgFailLib [] (some "key") "gemini-1.5-pro-latest").1 =
      .error (.googleAPIError "configure failed") :=
  ⟨rfl, rfl⟩

/-- C5 (amended): for every non-empty credential, provided the `configure`
step does not throw, a throwing model-handle acquisition makes construction
fail with the wrapping `GeminiAPIError` (`ModelInitializationError`) whose
recorded cause is the original exception, and otherwise construction
succeeds. -/
theorem mk_init_model_error_behavior (lib : GenAI) (env : Environ)
    (api_key : Option String) (model_name : String) (h : pyStrTruthy api_key = true)
    (hcfg : lib.configure (api_key.getD "") = none) :
    (∀ e, lib.generativeModel model_name = .error e →
      (GeminiAPIClient.mk_init lib env api_key model_name).1 =
        .error (.geminiAPIError ("Failed to initialize model: " ++ exnStr e) e)) ∧
    (∀ m, lib.generativeModel model_name = .ok m →
      (GeminiAPIClient.mk_init lib env api_key model_name).1 =
        .ok { api_key := api_key.getD "", model := m }) := by
  constructor <;> intro x hx <;> simp [GeminiAPIClient.mk_init, h, hcfg, hx]

/-- Witness for the amended C5: a healthy `configure` with a failing
model-handle acquisition yields the wrapping error with its cause. -/
theorem mk_init_model_error_behavior_witness :
    pyStrTruthy (some "k") = true ∧
    modelFailLib.configure "k" = none ∧
    (GeminiAPIClient.mk_init modelFailLib [] (some "k") "gemini-1.5-pro-latest").1 =
      .error (.geminiAPIError ("Failed to initialize model: " ++
        exnStr (.googleAPIError "model boom")) (.googleAPIError "model boom")) :=
  ⟨by decide, rfl,
    (mk_init_model_error_behavior modelFailLib [] (some "k") "gemini-1.5-pro-latest"
      (by decide) rfl).1 (.googleAPIError "model boom") rfl⟩

/-- C6 counterexample: a non-provider exception raised by the delegated
library during the configuration step of construction reaches the caller
raw — it is none of the three domain kinds. -/
theorem mk_init_vendor_error_reaches_caller :
    (GeminiAPIClient.mk_init cfgRawLib [] (some "k") "gemini-1.5-pro-latest").1 =
      .error (.otherError "boom") ∧
    isDomainError (.otherError "boom") = false :=
  ⟨rfl, rfl⟩

/-- C6 (amended): provided the `configure` step never throws, every exception
surfaced by construction is a domain error (`ValueError` or `GeminiAPIError`),
and every exception surfaced by `generate_content` is a domain error —
exceptions from `configure` itself are the one gap, propagating raw. -/
theorem facade_errors_are_domain_errors (lib : GenAI) (env : Environ)
    (api_key : Option String) (model_name : String)
    (hcfg : ∀ k, lib.configure k = none) :
    (∀ e, (GeminiAPIClient.mk_init lib env api_key model_name).1 = .error e →
      isDomainError e = true) ∧
    (∀ (c : GeminiAPIClient) (p : String) (g : Option GenConfig)
        (s : Option SafetySettings) (e : Exn),
      c.generate_content p g s = .error e → isDomainError e = true) := by
  constructor
  · intro e he
    rcases ht : pyStrTruthy api_key with _ | _
    · simp [GeminiAPIClient.mk_init, ht] at he
      simp [← he, isDomainError]
    · rcases hm : lib.generativeModel model_name with e0 | m <;>
        simp [GeminiAPIClient.mk_init, ht, hcfg, hm] at he
      simp [← he, isDomainError]
  · intro c p g s e he
    rcases hb : c.generate_content_try p g s with e0 | s0 <;>
      simp [GeminiAPIClient.generate_content, hb] at he
    simp [← he, isDomainError]

/-- Witness for the amended C6: a collaborator with a healthy `configure` and
failing model acquisition produces only domain errors, as does a content call
that raises an unexpected exception. -/
theorem facade_errors_are_domain_errors_witness :
    modelFailLib.configure "k" = none ∧
    isDomainError (.geminiAPIError ("Failed to initialize model: " ++
      exnStr (.googleAPIError "model boom")) (.googleAPIError "model boom")) = true ∧
    isDomainError (.geminiAPIError (contentWrapMsg (.otherError "weird"))
      (.otherError "weird")) = true :=
  ⟨rfl,
    (facade_errors_are_domain_errors modelFailLib [] (some "k") "gemini-1.5-pro-latest"
        (fun _ => rfl)).1
      (.geminiAPIError ("Failed to initialize model: " ++
        exnStr (.googleAPIError "model boom")) (.googleAPIError "model boom")) rfl,
    (facade_errors_are_domain_errors modelFailLib [] (some "k") "gemini-1.5-pro-latest"
        (fun _ => rfl)).2
      (clientWithErr (.otherError "weird")) "hi" none none
      (.geminiAPIError (contentWrapMsg (.otherError "weird")) (.otherError "weird")) rfl⟩

/-- C9 counterexample: running the CLI with `GEMINI_API_KEY` absent prints
the diagnostic and attempts no generation call, but `main` returns normally,
so the process exit status is 0 — not non-zero as claimed. -/
theorem main_missing_key_exit_status_zero :
    envGet ([] : Environ) "GEMINI_API_KEY" = none ∧
    (main_run stubLib []).output = [missingKeyMsg] ∧
    (main_run stubLib []).gen_calls = 0 ∧
    (main_run stubLib []).exit_code = 0 :=
  ⟨rfl, rfl, rfl, rfl⟩

/-- C9 (amended): with the credential environment variable absent or empty,
the CLI reports the diagnostic configuration error before attempting any
generation call — and then returns normally, exiting with process status
zero. -/
theorem main_missing_key_diagnostic (lib : GenAI) (env : Environ)
    (h : pyStrTruthy (envGet env "GEMINI_API_KEY") = false) :
    main_run lib env =
      { output := [missingKeyMsg], exit_code := 0, gen_calls := 0, env := env } := by
  simp [main_run, h]

/-- Witness for the amended C9 at an environment lacking the credential. -/
theorem main_missing_key_diagnostic_witness :
    pyStrTruthy (envGet [("PATH", "/bin")] "GEMINI_API_KEY") = false ∧
    main_run stubLib [("PATH", "/bin")] =
      { output := [missingKeyMsg], exit_code := 0, gen_calls := 0,
        env := [("PATH", "/bin")] } :=
  ⟨by decide, main_missing_key_diagnostic stubLib [("PATH", "/bin")] (by decide)⟩
